import Mathlib

/-
Verification development for the usps-webtools client library
(`src/usps.js`).  The JavaScript values that flow through the response
pipeline are shallowly embedded as `JSValue`; the response-processing part
of `callUSPS` (root-level error check, dotted-path walk, node-level error
check) is translated into executable Lean functions, and the operation
facades (`verify`, `zipCodeLookup`, `cityStateLookup`, `RateV4Request`)
are translated on top of them.
-/

set_option maxHeartbeats 1000000

namespace UspsWebtools

/-- Generic JavaScript-ish value as produced by the XML parser and used by
the request builders: `undef` stands for JavaScript `undefined` (and the
`null` result of parsing an empty body), `str` for strings, `num` for
numbers (modelled as rationals), `obj` for plain objects as ordered
key-value lists, `arr` for arrays. -/
inductive JSValue where
  | undef : JSValue
  | str : String → JSValue
  | num : ℚ → JSValue
  | obj : List (String × JSValue) → JSValue
  | arr : List JSValue → JSValue

/-- JavaScript truthiness: `undefined`, the empty string and `0` are falsy;
every object and every array (even empty ones) is truthy. -/
def truthy : JSValue → Bool
  | .undef => false
  | .str s => !s.toList.isEmpty
  | .num q => decide (q ≠ 0)
  | .obj _ => true
  | .arr _ => true

/-- First-match lookup in an ordered field list (JS object property read). -/
def lookupField : List (String × JSValue) → String → Option JSValue
  | [], _ => none
  | (k, v) :: rest, key => if k = key then some v else lookupField rest key

/-- Numeric value of a decimal digit list. -/
def natOfDigits (ds : List Char) : Nat :=
  ds.foldl (fun a c => a * 10 + (c.toNat - Char.toNat '0')) 0

/-- A string that is a canonical array index (`"0"`, `"17"`, ...), as used
by JavaScript when indexing arrays and strings with a bracketed key:
decimal digits with no leading zero (except `"0"` itself). -/
def canonicalIndex (s : String) : Option Nat :=
  match s.toList with
  | [] => none
  | c :: rest =>
      if (c :: rest).all Char.isDigit && (decide (c ≠ '0') || rest.isEmpty) then
        some (natOfDigits (c :: rest))
      else none

/-- JavaScript property access `v[k]`.  Reading a property of `undefined`
throws a TypeError (modelled by `Except.error ()`); reading a missing
property of an object, array or string yields `undefined`. -/
def jsGet : JSValue → String → Except Unit JSValue
  | .undef, _ => .error ()
  | .num _, _ => .ok .undef
  | .obj fs, k => .ok ((lookupField fs k).getD .undef)
  | .arr xs, k =>
      .ok (match canonicalIndex k with
           | some i => xs.getD i .undef
           | none => .undef)
  | .str s, k =>
      .ok (match canonicalIndex k with
           | some i =>
             match s.toList.get? i with
             | some c => .str c.toString
             | none => .undef
           | none => .undef)

/-- Does an object value contain the given key (structural containment,
independent of the truthiness of the stored value)? -/
def hasKey (v : JSValue) (k : String) : Bool :=
  match v with
  | .obj fs => (lookupField fs k).isSome
  | _ => false

/-- The `if (Array.isArray(specificResult)) specificResult = specificResult[0];`
step of `walkResult` (src/usps.js:240-242): arrays are collapsed to their
first element (`undefined` for an empty array); other values pass through. -/
def collapseArr : JSValue → JSValue
  | .arr [] => .undef
  | .arr (x :: _) => x
  | v => v

/-- The recursive `walkResult` of src/usps.js:231-246: shift the next key
off the dotted path, index the current value by it, collapse an array
result to its first element, and recurse until the key list is empty. -/
def walkResult : JSValue → List String → Except Unit JSValue
  | v, [] => .ok v
  | v, k :: ks =>
      match jsGet v k with
      | .error _ => .error ()
      | .ok v1 => walkResult (collapseArr v1) ks

/-- Leading- and trailing-whitespace removal on a character list. -/
def trimChars (cs : List Char) : List Char :=
  ((cs.dropWhile Char.isWhitespace).reverse.dropWhile Char.isWhitespace).reverse

/-- JavaScript `String.prototype.trim`. -/
def jsTrimString (s : String) : String :=
  ⟨trimChars s.toList⟩

/-- JavaScript `x.trim()`: succeeds exactly on strings, throws a TypeError
on every other receiver. -/
def jsTrim : JSValue → Except Unit JSValue
  | .str s => .ok (.str (jsTrimString s))
  | _ => .error ()

/-- The `try` body of the root-level error branch (src/usps.js:215):
`result.Error.Description[0].trim()`, applied to `e = result.Error`. -/
def rootTryMessage (e : JSValue) : Except Unit JSValue := do
  let d ← jsGet e "Description"
  let d0 ← jsGet d "0"
  jsTrim d0

/-- Root-level error message (src/usps.js:214-218): the trimmed
`Description[0]` when that evaluates without throwing, else the raw
`Error` node itself. -/
def rootErrMessage (e : JSValue) : JSValue :=
  match rootTryMessage e with
  | .ok m => m
  | .error _ => e

/-- The `try` body of the node-level error branch (src/usps.js:251):
`specificResult.Error[0].Description[0].trim()`, applied to
`ne = specificResult.Error`. -/
def nodeTryMessage (ne : JSValue) : Except Unit JSValue := do
  let e0 ← jsGet ne "0"
  let d ← jsGet e0 "Description"
  let d0 ← jsGet d "0"
  jsTrim d0

/-- Node-level error message (src/usps.js:250-254): the trimmed
`Error[0].Description[0]` when that evaluates without throwing, else the
raw `Error` node itself. -/
def nodeErrMessage (ne : JSValue) : JSValue :=
  match nodeTryMessage ne with
  | .ok m => m
  | .error _ => ne

/-- Modelled from the spec: the `USPSError` class of `src/error.js` is
required by `src/usps.js` but its source is not part of the repository
snapshot.  Spec section 3 and section 7 describe a Domain Error as a record
carrying a message string, the raw error node, and context (operation and
phase). -/
structure USPSError where
  message : String
  raw : JSValue
  context : Option (String × String)

/-- Modelled from the spec: the spec says that when the `Description` path
is absent the message "falls back to stringifying the raw error node"; the
exact string rendering is not fixed by the spec, so a simple JavaScript-like
`String(...)` conversion is used. -/
def jsToString : JSValue → String
  | .str s => s
  | .num q => toString q
  | .undef => "undefined"
  | .arr _ => "[array]"
  | .obj _ => "[object Object]"

/-- Modelled from the spec: constructing a `USPSError` from a message value
(which the calling code may pass either as a trimmed string or as the raw
error node), the raw node, and optional context. -/
def mkUSPSError (msg : JSValue) (raw : JSValue) (ctx : Option (String × String)) : USPSError :=
  ⟨jsToString msg, raw, ctx⟩

/-- Outcome of one `callback(...)` decision inside `callUSPS`: either an
error value or a success value. -/
inductive Outcome where
  | err : USPSError → Outcome
  | ok : JSValue → Outcome

/-- The node-level error check and success return of src/usps.js:249-261,
applied to the node reached by the walk.  Reading `.Error` of `undefined`
throws, which is modelled as `none` (the callback is never invoked). -/
def nodeCheck (node : JSValue) : Option Outcome :=
  match jsGet node "Error" with
  | .error _ => none
  | .ok ne =>
      if truthy ne then some (.err (mkUSPSError (nodeErrMessage ne) ne none))
      else some (.ok node)

/-- The walk-then-node-check tail of the response handler
(src/usps.js:229-261): a walk that throws yields no callback at all. -/
def postWalk (r : Except Unit JSValue) : Option Outcome :=
  match r with
  | .error _ => none
  | .ok node => nodeCheck node

/-- Splitting a character list at the dot character. -/
def splitDotsAux : List Char → List (List Char)
  | [] => [[]]
  | c :: cs =>
      let rest := splitDotsAux cs
      if c = '.' then [] :: rest
      else
        match rest with
        | [] => [[c]]
        | g :: gs => (c :: g) :: gs

/-- JavaScript `resultDotNotation.split('.')` (src/usps.js:230): the empty
string splits to `[""]`, `"A.B"` to `["A", "B"]`. -/
def splitDots (s : String) : List String :=
  (splitDotsAux s.toList).map (fun cs => ⟨cs⟩)

/-- The response-tree handler of `callUSPS` (src/usps.js:212-261): check
the root-level `Error` (truthiness test), otherwise walk the dotted path
and run the node-level check.  `none` means the JavaScript code threw and
the callback never fired. -/
def handleParsedTree (tree : JSValue) (path : String) : Option Outcome :=
  match jsGet tree "Error" with
  | .error _ => none
  | .ok e =>
      if truthy e then some (.err (mkUSPSError (rootErrMessage e) e none))
      else postWalk (walkResult tree (splitDots path))

/-- Outcome of the transport and parse stages, which are performed by the
external collaborators `request` and `xml2js`: a transport error with a
message, a parse error with a message, or a successfully parsed tree. -/
inductive WireOutcome where
  | reqErr : String → WireOutcome
  | parseErr : String → WireOutcome
  | parsed : JSValue → WireOutcome

/-- The body of the `request(opts, ...)` callback of `callUSPS`
(src/usps.js:192-262), as a function of the transport/parse outcome: a
transport error yields a `USPSError` with context `(api, "request")`
(src/usps.js:194-197), a parse error one with context `(api, "xml parse")`
(src/usps.js:205-208), and a parsed tree is processed by
`handleParsedTree`.  `none` means the handler threw and no callback
fired. -/
def callUSPSResponse (api : String) (path : String) : WireOutcome → Option Outcome
  | .reqErr m => some (.err ⟨m, .str m, some (api, "request")⟩)
  | .parseErr m => some (.err ⟨m, .str m, some (api, "xml parse")⟩)
  | .parsed tree => handleParsedTree tree path

/-- One invocation of a facade callback: the error argument and the value
argument (each possibly absent, i.e. `null`/`undefined` in JavaScript). -/
def CallbackCall := Option USPSError × Option JSValue

/-- The `function(err, address) do ... end` wrapper every facade passes to
`callUSPS`: an error is forwarded as `callback(err)`; a success value is
reshaped and passed as `callback(null, reshaped)` (for `cityStateLookup`
and `RateV4Request` literally as `callback(err, ...)` with `err` null).
`none` means either `callUSPS` itself threw, or the reshaping of an
unexpected node shape threw, and the callback never fired. -/
def runCallbacks (reshape : JSValue → Except Unit JSValue) :
    Option Outcome → Option (List CallbackCall)
  | none => none
  | some (.err e) => some [(some e, none)]
  | some (.ok v) =>
      match reshape v with
      | .error _ => none
      | .ok out => some [(none, some out)]

/-- The address argument shared by `verify` and `zipCodeLookup`:
`street2` is optional (src/usps.js:25, 67). -/
structure AddressInput where
  street1 : String
  street2 : Option String
  city : String
  state : String
  zip : String

/-- The `address.street2 || ''` expression: an absent (or empty) `street2`
becomes the empty string. -/
def street2OrEmpty (a : AddressInput) : String :=
  match a.street2 with
  | some s => s
  | none => ""

/-- Field list of the `Address` element built by `verify`
(src/usps.js:33-42): `Address1` is `street2 || ''`, `Address2` is
`street1`. -/
def verifyAddressFields (a : AddressInput) : List (String × JSValue) :=
  [("Address1", .str (street2OrEmpty a)),
   ("Address2", .str a.street1),
   ("City", .str a.city),
   ("State", .str a.state),
   ("Zip5", .str a.zip),
   ("Zip4", .str "")]

/-- Parameter tree of `verify` (src/usps.js:33-42). -/
def verifyParams (a : AddressInput) : JSValue :=
  .obj [("Address", .obj (verifyAddressFields a))]

/-- Field list of the `Address` element built by `zipCodeLookup`
(src/usps.js:75-82). -/
def zipCodeLookupAddressFields (a : AddressInput) : List (String × JSValue) :=
  [("Address1", .str (street2OrEmpty a)),
   ("Address2", .str a.street1),
   ("City", .str a.city),
   ("State", .str a.state)]

/-- Parameter tree of `zipCodeLookup` (src/usps.js:75-82). -/
def zipCodeLookupParams (a : AddressInput) : JSValue :=
  .obj [("Address", .obj (zipCodeLookupAddressFields a))]

/-- Parameter tree of `cityStateLookup` (src/usps.js:110-114). -/
def cityStateLookupParams (zip : String) : JSValue :=
  .obj [("ZipCode", .obj [("Zip5", .str zip)])]

/-- Reshape of the node extracted by `verify` (src/usps.js:50-56):
`street1` from `Address2[0]`, `street2` from `Address1[0]` when `Address1`
is truthy and `''` otherwise, then `city`, `zip`, `state` from the first
cells of the corresponding fields. -/
def verifyReshape (address : JSValue) : Except Unit JSValue := do
  let a2 ← jsGet address "Address2"
  let s1 ← jsGet a2 "0"
  let a1 ← jsGet address "Address1"
  let s2 ← if truthy a1 then jsGet a1 "0" else pure (JSValue.str "")
  let c ← jsGet address "City"
  let c0 ← jsGet c "0"
  let z ← jsGet address "Zip5"
  let z0 ← jsGet z "0"
  let st ← jsGet address "State"
  let st0 ← jsGet st "0"
  pure (.obj [("street1", s1), ("street2", s2), ("city", c0),
              ("zip", z0), ("state", st0)])

/-- Reshape of the node extracted by `zipCodeLookup` (src/usps.js:90-96);
the `zip` field concatenates `Zip5[0]`, `'-'` and `Zip4[0]` with the
JavaScript string coercion of `+`. -/
def zipCodeLookupReshape (address : JSValue) : Except Unit JSValue := do
  let a2 ← jsGet address "Address2"
  let s1 ← jsGet a2 "0"
  let a1 ← jsGet address "Address1"
  let s2 ← if truthy a1 then jsGet a1 "0" else pure (JSValue.str "")
  let c ← jsGet address "City"
  let c0 ← jsGet c "0"
  let st ← jsGet address "State"
  let st0 ← jsGet st "0"
  let z5 ← jsGet address "Zip5"
  let z50 ← jsGet z5 "0"
  let z4 ← jsGet address "Zip4"
  let z40 ← jsGet z4 "0"
  pure (.obj [("street1", s1), ("street2", s2), ("city", c0),
              ("state", st0),
              ("zip", .str (jsToString z50 ++ "-" ++ jsToString z40))])

/-- Reshape of the node extracted by `cityStateLookup`
(src/usps.js:122-126). -/
def cityStateLookupReshape (address : JSValue) : Except Unit JSValue := do
  let c ← jsGet address "City"
  let c0 ← jsGet c "0"
  let st ← jsGet address "State"
  let st0 ← jsGet st "0"
  let z ← jsGet address "Zip5"
  let z0 ← jsGet z "0"
  pure (.obj [("city", c0), ("state", st0), ("zip", z0)])

/-- What a facade returns to its own caller: `verify` and `zipCodeLookup`
end with `return this` (src/usps.js:59, 99); `cityStateLookup` and
`RateV4Request` fall off the end, returning `undefined`. -/
inductive RetVal where
  | moduleSelf : RetVal
  | undefinedValue : RetVal
deriving DecidableEq

/-- The `verify` operation (src/usps.js:32-60): callback invocations as a
function of the wire outcome, paired with the facade return value. -/
def verifyOp (_a : AddressInput) (w : WireOutcome) :
    Option (List CallbackCall) × RetVal :=
  (runCallbacks verifyReshape
     (callUSPSResponse "Verify" "AddressValidateResponse.Address" w),
   .moduleSelf)

/-- The `zipCodeLookup` operation (src/usps.js:74-100). -/
def zipCodeLookupOp (_a : AddressInput) (w : WireOutcome) :
    Option (List CallbackCall) × RetVal :=
  (runCallbacks zipCodeLookupReshape
     (callUSPSResponse "ZipCodeLookup" "ZipCodeLookupResponse.Address" w),
   .moduleSelf)

/-- The `cityStateLookup` operation (src/usps.js:109-128). -/
def cityStateLookupOp (_zip : String) (w : WireOutcome) :
    Option (List CallbackCall) × RetVal :=
  (runCallbacks cityStateLookupReshape
     (callUSPSResponse "CityStateLookup" "CityStateLookupResponse.ZipCode" w),
   .undefinedValue)

/-- JavaScript `parseInt(s, 10)`: skip leading whitespace, read an optional
sign and the longest prefix of decimal digits; `none` models `NaN`. -/
def jsParseInt : String → Option Int := fun s =>
  let cs := s.toList.dropWhile Char.isWhitespace
  let signed : Int × List Char :=
    match cs with
    | '-' :: rest => (-1, rest)
    | '+' :: rest => (1, rest)
    | _ => (1, cs)
  let ds := signed.2.takeWhile Char.isDigit
  if ds.isEmpty then none
  else some (signed.1 * (ds.foldl (fun a c => a * 10 + (c.toNat - '0'.toNat)) 0 : Nat))

/-- The `parseInt(weight, 10) || 0` expression of src/usps.js:143:
a `NaN` parse (and a zero parse, which `|| 0` maps to the same value)
yields `0`. -/
def jsParseIntOr0 (s : String) : Int :=
  match jsParseInt s with
  | none => 0
  | some n => n

/-- The `service || "STANDARD POST"` expression of src/usps.js:151. -/
def serviceOrDefault (service : Option String) : String :=
  match service with
  | some s => if s = "" then "STANDARD POST" else s
  | none => "STANDARD POST"

/-- Parameter tree of `RateV4Request` (src/usps.js:143-161): `Pounds` is
`ozWeight / 16` with JavaScript (real) division, `Ounces` is the original
integer ounce value. -/
def rateV4Params (fromZip toZip weight : String) (service : Option String) : JSValue :=
  .obj [("ID", .num 0),
        ("Service", .str (serviceOrDefault service)),
        ("ZipOrigination", .str fromZip),
        ("ZipDestination", .str toZip),
        ("Pounds", .num ((jsParseIntOr0 weight : ℚ) / 16)),
        ("Ounces", .num (jsParseIntOr0 weight : ℚ)),
        ("Container", .str ""),
        ("Size", .str "REGULAR"),
        ("SpecialServices", .obj [("SpecialService", .num 106)])]

/-- The `RateV4Request` operation (src/usps.js:141-171): the extracted
`RateV4Response` node is passed to the callback verbatim. -/
def rateV4Op (_fromZip _toZip _weight : String) (_service : Option String)
    (w : WireOutcome) : Option (List CallbackCall) × RetVal :=
  (runCallbacks (fun v => .ok v)
     (callUSPSResponse "RateV4" "RateV4Response" w),
   .undefinedValue)

/-- The configuration object passed to the `usps` constructor
(src/usps.js:9-18): `server`, `userId` and `ttl` may each be absent. -/
structure Config where
  server : Option String
  userId : Option String
  ttl : Option ℚ

/-- JavaScript truthiness of an optional string property: absent
(`undefined`) and the empty string are falsy. -/
def falsyStrOpt : Option String → Bool
  | none => true
  | some s => s.toList.isEmpty

/-- JavaScript truthiness of the optional numeric `ttl` property: absent
and `0` are falsy. -/
def falsyNumOpt : Option ℚ → Bool
  | none => true
  | some q => decide (q = 0)

/-- The `usps` constructor (src/usps.js:9-18): it throws synchronously
when `config`, `config.server` or `config.userId` is falsy
(absent or empty), before any call is attempted; otherwise it defaults a
falsy `ttl` to `100000` and stores the configuration. -/
def uspsNew : Option Config → Except String Config
  | none => .error "Error: must pass usps server url and userId"
  | some c =>
      if falsyStrOpt c.server || falsyStrOpt c.userId then
        .error "Error: must pass usps server url and userId"
      else
        .ok { c with ttl := if falsyNumOpt c.ttl then some 100000 else c.ttl }

/-- An XML round trip through the target service wraps every scalar child
element in a singleton sequence: this is the xml2js shape of a response
node that echoes a request field list back. -/
def echoFields (fields : List (String × JSValue)) : List (String × JSValue) :=
  fields.map (fun kv => (kv.1, .arr [kv.2]))

/-- A full response tree in which the service echoes the `Address` element
built by `verify` back at the `AddressValidateResponse.Address` result
path. -/
def verifyEchoTree (a : AddressInput) : JSValue :=
  .obj [("AddressValidateResponse",
    .obj [("Address", .arr [.obj (echoFields (verifyAddressFields a))])])]

/-- The callback of an operation fires exactly once, and that single
invocation carries either an error argument or a success argument, never
both and never neither. -/
def firesExactlyOnce (r : Option (List CallbackCall)) : Prop :=
  ∀ calls, r = some calls →
    calls.length = 1 ∧
    ∀ cb ∈ calls,
      (cb.1.isSome = true ∧ cb.2 = none) ∨ (cb.1 = none ∧ cb.2.isSome = true)

theorem jsGet_arr_zero (x : JSValue) (xs : List JSValue) :
    jsGet (.arr (x :: xs)) "0" = .ok x := rfl

theorem runCallbacks_once (reshape : JSValue → Except Unit JSValue)
    (o : Option Outcome) : firesExactlyOnce (runCallbacks reshape o) := by
  intro calls h
  cases o with
  | none => simp [runCallbacks] at h
  | some oc =>
    cases oc with
    | err e =>
      simp [runCallbacks] at h
      subst h
      simp
    | ok v =>
      cases hr : reshape v with
      | error u => simp [runCallbacks, hr] at h
      | ok out =>
        simp [runCallbacks, hr] at h
        subst h
        simp

/-- C1, counterexample: the claim quantifies over every parsed tree that
contains a root-level `Error` key, but src/usps.js:213 tests `result.Error`
for truthiness, so the tree parsed from the body `<Error/>` — in which the
`Error` key holds the empty string — is not treated as a whole-call
DomainError at all: extracting the path `"Error"` yields a success result,
and no DomainError is produced. -/
theorem claim1_counterexample :
    hasKey (.obj [("Error", .str "")]) "Error" = true ∧
    handleParsedTree (.obj [("Error", .str "")]) "Error"
      = some (.ok (.str "")) :=
  ⟨rfl, rfl⟩

/-- C1 (amended): for every parsed tree whose root-level `Error` value is
truthy (a non-empty value, as tested by src/usps.js:213), extraction
yields a whole-call DomainError regardless of the requested result path;
its message is `Error.Description[0]` trimmed whenever that expression
evaluates to a string, and otherwise falls back to the raw `Error` node
(stringified by the spec-modelled `USPSError` constructor). -/
theorem claim1_root_error_message (tree e : JSValue) (path : String)
    (h1 : jsGet tree "Error" = .ok e) (h2 : truthy e = true) :
    handleParsedTree tree path
      = some (.err (mkUSPSError (rootErrMessage e) e none)) ∧
    (∀ m, rootTryMessage e = .ok m → rootErrMessage e = m) ∧
    (rootTryMessage e = .error () → rootErrMessage e = e) ∧
    (∀ d rest, jsGet e "Description" = .ok (.arr (.str d :: rest)) →
       rootErrMessage e = .str (jsTrimString d)) := by
  refine ⟨?_, ?_, ?_, ?_⟩
  · simp [handleParsedTree, h1, h2]
  · intro m hm
    simp [rootErrMessage, hm]
  · intro hm
    simp [rootErrMessage, hm]
  · intro d rest hd
    simp [rootErrMessage, rootTryMessage, hd, bind, Except.bind,
          jsGet_arr_zero, jsTrim]

/-- C1 witness: the tree parsed from a root-level
`Error.Description = [" Bad input "]` yields, for an arbitrary result
path, a DomainError whose message is exactly the trimmed `"Bad input"`. -/
theorem claim1_root_error_message_witness :
    handleParsedTree
      (.obj [("Error", .obj [("Description", .arr [.str " Bad input "])])])
      "AddressValidateResponse.Address"
    = some (.err ⟨"Bad input",
        .obj [("Description", .arr [.str " Bad input "])], none⟩) :=
  (claim1_root_error_message
    (.obj [("Error", .obj [("Description", .arr [.str " Bad input "])])])
    (.obj [("Description", .arr [.str " Bad input "])])
    "AddressValidateResponse.Address" rfl rfl).1

/-- C2: when the tree has no root-level `Error` key, extraction proceeds
to the dotted-path walk (src/usps.js:229-246): the path is split on the
dot character, and each step indexes by the next key and collapses a
sequence result to its element at index 0; in particular a tree with a
singleton sequence at every level along `"A.B"` extracts to the scalar at
`tree.A[0].B[0]`. -/
theorem claim2_dotted_path_walk :
    (∀ fs path, lookupField fs "Error" = none →
       handleParsedTree (.obj fs) path
         = postWalk (walkResult (.obj fs) (splitDots path))) ∧
    (∀ v k ks, walkResult v (k :: ks)
       = match jsGet v k with
         | .error _ => .error ()
         | .ok v1 => walkResult (collapseArr v1) ks) ∧
    splitDots "A.B" = ["A", "B"] ∧
    (∀ s : String,
       walkResult (.obj [("A", .arr [.obj [("B", .arr [.str s])]])])
         ["A", "B"] = .ok (.str s) ∧
       handleParsedTree (.obj [("A", .arr [.obj [("B", .arr [.str s])]])])
         "A.B" = some (.ok (.str s))) := by
  refine ⟨?_, ?_, rfl, fun s => ⟨rfl, rfl⟩⟩
  · intro fs path h
    simp [handleParsedTree, jsGet, h, truthy]
  · intro v k ks
    rfl

/-- C2 witness: the no-root-error factorization applied at a concrete
tree and path, and the singleton-sequence extraction at a concrete
scalar. -/
theorem claim2_dotted_path_walk_witness :
    handleParsedTree (.obj [("A", .arr [.str "x"])]) "A"
      = postWalk (walkResult (.obj [("A", .arr [.str "x"])]) (splitDots "A")) ∧
    handleParsedTree
      (.obj [("A", .arr [.obj [("B", .arr [.str "80202"])]])]) "A.B"
      = some (.ok (.str "80202")) :=
  ⟨claim2_dotted_path_walk.1 [("A", .arr [.str "x"])] "A" rfl,
   (claim2_dotted_path_walk.2.2.2 "80202").2⟩

/-- C3, counterexample: the claim states that whenever the tree has a
root-level `Error` key the outcome is the root-level DomainError, but
src/usps.js:213 tests truthiness, so a tree whose root `Error` key holds
the empty string is walked normally and extraction succeeds. -/
theorem claim3_counterexample :
    hasKey (.obj [("Error", .str ""), ("A", .arr [.str "ok"])]) "Error"
      = true ∧
    handleParsedTree (.obj [("Error", .str ""), ("A", .arr [.str "ok"])]) "A"
      = some (.ok (.str "ok")) :=
  ⟨rfl, rfl⟩

/-- C3 (amended): whenever the tree has a truthy root-level `Error` value,
the outcome is the root-level DomainError for every requested path, so
neither the path walk nor the node-level error check can influence the
result. -/
theorem claim3_root_error_precedence (tree e : JSValue)
    (h1 : jsGet tree "Error" = .ok e) (h2 : truthy e = true) :
    ∀ path, handleParsedTree tree path
      = some (.err (mkUSPSError (rootErrMessage e) e none)) := by
  intro path
  simp [handleParsedTree, h1, h2]

/-- C3 witness: a concrete tree with both a root-level error and a
well-formed result node still produces the root-level DomainError. -/
theorem claim3_root_error_precedence_witness :
    handleParsedTree
      (.obj [("Error", .obj [("Description", .arr [.str " Server down "])]),
             ("X", .arr [.str "v"])]) "X"
    = some (.err ⟨"Server down",
        .obj [("Description", .arr [.str " Server down "])], none⟩) :=
  claim3_root_error_precedence
    (.obj [("Error", .obj [("Description", .arr [.str " Server down "])]),
           ("X", .arr [.str "v"])])
    (.obj [("Description", .arr [.str " Server down "])]) rfl rfl "X"

/-- C4, counterexample: the claim states that a reached node containing an
`Error` key yields a node-level DomainError, but src/usps.js:249 tests
`specificResult.Error` for truthiness, so a reached node whose `Error` key
holds the empty string is returned as a success result instead. -/
theorem claim4_counterexample :
    walkResult (.obj [("A", .arr [.obj [("Error", .str "")]])]) ["A"]
      = .ok (.obj [("Error", .str "")]) ∧
    hasKey (.obj [("Error", .str "")]) "Error" = true ∧
    handleParsedTree (.obj [("A", .arr [.obj [("Error", .str "")]])]) "A"
      = some (.ok (.obj [("Error", .str "")])) :=
  ⟨rfl, rfl, rfl⟩

/-- C4 (amended): with no truthy root-level error, if the node reached by
the dotted-path walk has a truthy `Error` value then extraction yields a
node-level DomainError whose message is `Error[0].Description[0]` trimmed
when that expression evaluates to a string and the raw `Error` node
(stringified by the spec-modelled constructor) otherwise, and if the
reached node's `Error` value is not truthy the node itself is the success
result. -/
theorem claim4_node_error_check (tree node e0 ne : JSValue) (path : String)
    (h0 : jsGet tree "Error" = .ok e0) (h0t : truthy e0 = false)
    (hw : walkResult tree (splitDots path) = .ok node)
    (hne : jsGet node "Error" = .ok ne) :
    (truthy ne = true →
       handleParsedTree tree path
         = some (.err (mkUSPSError (nodeErrMessage ne) ne none))) ∧
    (truthy ne = false →
       handleParsedTree tree path = some (.ok node)) ∧
    (∀ m, nodeTryMessage ne = .ok m → nodeErrMessage ne = m) ∧
    (nodeTryMessage ne = .error () → nodeErrMessage ne = ne) ∧
    (∀ inner d rest, jsGet ne "0" = .ok inner →
       jsGet inner "Description" = .ok (.arr (.str d :: rest)) →
       nodeErrMessage ne = .str (jsTrimString d)) := by
  refine ⟨?_, ?_, ?_, ?_, ?_⟩
  · intro ht
    simp [handleParsedTree, h0, h0t, postWalk, hw, nodeCheck, hne, ht]
  · intro ht
    simp [handleParsedTree, h0, h0t, postWalk, hw, nodeCheck, hne, ht]
  · intro m hm
    simp [nodeErrMessage, hm]
  · intro hm
    simp [nodeErrMessage, hm]
  · intro inner d rest h1 h2
    simp [nodeErrMessage, nodeTryMessage, h1, h2, bind, Except.bind,
          jsGet_arr_zero, jsTrim]

/-- C4 witness: a response whose result node carries
`Error = [ Description = [" No match "] ]` produces a node-level
DomainError with the trimmed message `"No match"`. -/
theorem claim4_node_error_check_witness :
    handleParsedTree
      (.obj [("R", .arr [.obj [("Error",
        .arr [.obj [("Description", .arr [.str " No match "])]])]])])
      "R"
    = some (.err ⟨"No match",
        .arr [.obj [("Description", .arr [.str " No match "])]], none⟩) :=
  (claim4_node_error_check
    (.obj [("R", .arr [.obj [("Error",
      .arr [.obj [("Description", .arr [.str " No match "])]])]])])
    (.obj [("Error", .arr [.obj [("Description", .arr [.str " No match "])]])])
    .undef
    (.arr [.obj [("Description", .arr [.str " No match "])]])
    "R" rfl rfl rfl rfl).1 rfl

/-- C5: for every address with no `street2`, `verify` builds its `Address`
parameter element with `Address1 = ''` and `Address2 = street1`
(src/usps.js:33-42), and when the service echoes that element back at the
result path, the reshaped output (src/usps.js:50-56) has `street1` equal
to the input `street1` and `street2` equal to `''`: the Address1/Address2
swap round-trips. -/
theorem claim5_verify_round_trip (s1 c st z : String) :
    lookupField (verifyAddressFields ⟨s1, none, c, st, z⟩) "Address1"
      = some (.str "") ∧
    lookupField (verifyAddressFields ⟨s1, none, c, st, z⟩) "Address2"
      = some (.str s1) ∧
    (verifyOp ⟨s1, none, c, st, z⟩
       (.parsed (verifyEchoTree ⟨s1, none, c, st, z⟩))).1
      = some [(none, some (.obj
          [("street1", .str s1), ("street2", .str ""), ("city", .str c),
           ("zip", .str z), ("state", .str st)]))] :=
  ⟨rfl, rfl, rfl⟩

/-- C5 witness: the round trip at a concrete address. -/
theorem claim5_verify_round_trip_witness :
    (verifyOp ⟨"1600 Pennsylvania Ave NW", none, "Washington", "DC", "20500"⟩
       (.parsed (verifyEchoTree
         ⟨"1600 Pennsylvania Ave NW", none, "Washington", "DC", "20500"⟩))).1
      = some [(none, some (.obj
          [("street1", .str "1600 Pennsylvania Ave NW"),
           ("street2", .str ""), ("city", .str "Washington"),
           ("zip", .str "20500"), ("state", .str "DC")]))] :=
  (claim5_verify_round_trip
    "1600 Pennsylvania Ave NW" "Washington" "DC" "20500").2.2

/-- C6: `RateV4Request` parses the weight input as an integer number of
ounces (non-numeric input giving 0, src/usps.js:143) and fills `Pounds`
with `ounces / 16` under real (non-integer) division and `Ounces` with the
original integer value: at 20 ounces, `Pounds` is 5/4 — not the integer
quotient 1 — and `Ounces` is 20 — not the remainder 4. -/
theorem claim6_rate_weight_conversion :
    (∀ fz tz w sv,
       jsGet (rateV4Params fz tz w sv) "Pounds"
         = .ok (.num ((jsParseIntOr0 w : ℚ) / 16)) ∧
       jsGet (rateV4Params fz tz w sv) "Ounces"
         = .ok (.num (jsParseIntOr0 w : ℚ))) ∧
    jsParseIntOr0 "abc" = 0 ∧
    jsParseIntOr0 "20" = 20 ∧
    jsGet (rateV4Params "11111" "22222" "20" none) "Pounds"
      = .ok (.num ((20 : ℚ) / 16)) ∧
    (20 : ℚ) / 16 = 5 / 4 ∧
    jsGet (rateV4Params "11111" "22222" "20" none) "Pounds"
      ≠ .ok (.num ((20 / 16 : Int) : ℚ)) ∧
    jsGet (rateV4Params "11111" "22222" "20" none) "Ounces"
      = .ok (.num 20) ∧
    jsGet (rateV4Params "11111" "22222" "20" none) "Ounces"
      ≠ .ok (.num ((20 % 16 : Int) : ℚ)) := by
  refine ⟨fun fz tz w sv => ⟨rfl, rfl⟩, rfl, rfl, rfl, by norm_num, ?_, rfl, ?_⟩
  · intro h
    rw [show jsGet (rateV4Params "11111" "22222" "20" none) "Pounds"
          = .ok (.num ((20 : ℚ) / 16)) from rfl] at h
    norm_num at h
  · intro h
    rw [show jsGet (rateV4Params "11111" "22222" "20" none) "Ounces"
          = .ok (.num (20 : ℚ)) from rfl] at h
    norm_num at h

/-- C6 witness: the weight-parameter equations at the concrete weight
string `"20"`. -/
theorem claim6_rate_weight_conversion_witness :
    jsGet (rateV4Params "11111" "22222" "20" none) "Pounds"
      = .ok (.num ((jsParseIntOr0 "20" : ℚ) / 16)) ∧
    jsGet (rateV4Params "11111" "22222" "20" none) "Ounces"
      = .ok (.num (jsParseIntOr0 "20" : ℚ)) ∧
    jsParseIntOr0 "abc" = 0 :=
  ⟨(claim6_rate_weight_conversion.1 "11111" "22222" "20" none).1,
   (claim6_rate_weight_conversion.1 "11111" "22222" "20" none).2,
   claim6_rate_weight_conversion.2.1⟩

/-- C7: constructing the client (src/usps.js:9-18) fails synchronously —
the constructor is a pure function evaluated before any call — exactly
when the server URL or the userId is missing (absent or empty, the JS
falsiness test of src/usps.js:10); on success with no timeout supplied,
`ttl` defaults to 100000. -/
theorem claim7_constructor (c : Config) :
    ((uspsNew (some c)).isOk = false ↔
       (falsyStrOpt c.server = true ∨ falsyStrOpt c.userId = true)) ∧
    (falsyStrOpt c.server = false → falsyStrOpt c.userId = false →
       c.ttl = none →
       uspsNew (some c) = .ok ⟨c.server, c.userId, some 100000⟩) := by
  constructor
  · cases hs : falsyStrOpt c.server <;> cases hu : falsyStrOpt c.userId <;>
      simp [uspsNew, hs, hu, Except.isOk, Except.toBool]
  · intro h1 h2 h3
    simp [uspsNew, h1, h2, h3, falsyNumOpt]

/-- C7 witness: a complete configuration with no timeout constructs
successfully with `ttl = 100000`, and a configuration missing the server
URL fails to construct. -/
theorem claim7_constructor_witness :
    uspsNew (some ⟨some "http://production.shippingapis.com/ShippingAPI.dll",
                   some "user", none⟩)
      = .ok ⟨some "http://production.shippingapis.com/ShippingAPI.dll",
             some "user", some 100000⟩ ∧
    (uspsNew (some ⟨none, some "user", none⟩)).isOk = false :=
  ⟨(claim7_constructor
      ⟨some "http://production.shippingapis.com/ShippingAPI.dll",
       some "user", none⟩).2 rfl rfl rfl,
   (claim7_constructor ⟨none, some "user", none⟩).1.mpr (Or.inl rfl)⟩

/-- C8: on the successful response tree with
`CityStateLookupResponse.ZipCode` holding `City = ["DENVER"]`,
`State = ["CO"]`, `Zip5 = ["80202"]`, the `cityStateLookup` facade invokes
its callback exactly with the flat record
`city = "DENVER", state = "CO", zip = "80202"` (src/usps.js:116-127). -/
theorem claim8_city_state_lookup :
    (cityStateLookupOp "80202"
      (.parsed (.obj [("CityStateLookupResponse",
        .obj [("ZipCode", .arr [.obj
          [("City", .arr [.str "DENVER"]),
           ("State", .arr [.str "CO"]),
           ("Zip5", .arr [.str "80202"])]])])]))).1
    = some [(none, some (.obj [("city", .str "DENVER"),
        ("state", .str "CO"), ("zip", .str "80202")]))] :=
  rfl

/-- C9: for every wire outcome on which the handler completes (transport
error, parse error, root-level domain error, node-level domain error, or
success — the `none` cases are the ones where the JavaScript handler
throws on an unexpected response shape and no outcome of the enumeration
is produced), each public operation invokes its callback exactly once,
with either an error argument or a success argument and never both. -/
theorem claim9_callback_exactly_once (a : AddressInput)
    (z fz tz wt : String) (sv : Option String) (w : WireOutcome) :
    firesExactlyOnce (verifyOp a w).1 ∧
    firesExactlyOnce (zipCodeLookupOp a w).1 ∧
    firesExactlyOnce (cityStateLookupOp z w).1 ∧
    firesExactlyOnce (rateV4Op fz tz wt sv w).1 :=
  ⟨runCallbacks_once verifyReshape
     (callUSPSResponse "Verify" "AddressValidateResponse.Address" w),
   runCallbacks_once zipCodeLookupReshape
     (callUSPSResponse "ZipCodeLookup" "ZipCodeLookupResponse.Address" w),
   runCallbacks_once cityStateLookupReshape
     (callUSPSResponse "CityStateLookup" "CityStateLookupResponse.ZipCode" w),
   runCallbacks_once (fun v => .ok v)
     (callUSPSResponse "RateV4" "RateV4Response" w)⟩

/-- C9 witness: on a transport error, `verify` fires its callback exactly
once, with an error argument and no success argument. -/
theorem claim9_callback_exactly_once_witness :
    [((some ⟨"boom", .str "boom", some ("Verify", "request")⟩ :
        Option USPSError), (none : Option JSValue))].length = 1 ∧
    ∀ cb ∈ [((some ⟨"boom", .str "boom", some ("Verify", "request")⟩ :
        Option USPSError), (none : Option JSValue))],
      (cb.1.isSome = true ∧ cb.2 = none) ∨
      (cb.1 = none ∧ cb.2.isSome = true) :=
  (claim9_callback_exactly_once ⟨"s", none, "c", "st", "z"⟩
    "80202" "11111" "22222" "20" none (.reqErr "boom")).1
    [(some ⟨"boom", .str "boom", some ("Verify", "request")⟩, none)] rfl

/-- C10: for every input, `verify` and `zipCodeLookup` return the client
instance (`return this`, src/usps.js:59 and 99) while `cityStateLookup`
and `RateV4Request` fall off the end and return `undefined`
(src/usps.js:109-128 and 141-171): the four public operations do not share
one return-value convention. -/
theorem claim10_return_values (a : AddressInput)
    (z fz tz wt : String) (sv : Option String) (w : WireOutcome) :
    (verifyOp a w).2 = .moduleSelf ∧
    (zipCodeLookupOp a w).2 = .moduleSelf ∧
    (cityStateLookupOp z w).2 = .undefinedValue ∧
    (rateV4Op fz tz wt sv w).2 = .undefinedValue ∧
    RetVal.moduleSelf ≠ RetVal.undefinedValue :=
  ⟨rfl, rfl, rfl, rfl, by simp⟩

/-- C10 witness: the return values at concrete inputs. -/
theorem claim10_return_values_witness :
    (verifyOp ⟨"s", none, "c", "st", "z"⟩ (.reqErr "x")).2 = .moduleSelf ∧
    (cityStateLookupOp "80202" (.reqErr "x")).2 = .undefinedValue :=
  ⟨(claim10_return_values ⟨"s", none, "c", "st", "z"⟩
      "80202" "11111" "22222" "20" none (.reqErr "x")).1,
   (claim10_return_values ⟨"s", none, "c", "st", "z"⟩
      "80202" "11111" "22222" "20" none (.reqErr "x")).2.2.1⟩

end UspsWebtools
